import Mathlib

/-!
Shallow embedding of the territory rendering and cache-loading logic of
src/dashboard/src/lib/components/StandortMap.svelte together with the
territories API client (getTerritories / TerritoryData in
src/dashboard/src/lib/api.ts).  JavaScript numbers are modelled as
rationals, the JavaScript Map built with set/get as an explicit function,
JavaScript array indexing as an Option-valued lookup, and the async control
flow of loadCachedTerritories as a pure state transition parametrised by
the outcome of the cache request.
-/

namespace StandortMap

/-- A service location record (Standort in $lib/types); the engine only
reads id, name, address and the optional coordinates. -/
structure Standort where
  id : String
  name : String
  address : Option String
  latitude : Option ℚ
  longitude : Option ℚ
deriving DecidableEq, Repr

/-- One cell of the cached territory grid (TerritoryData.grid element). -/
structure GridCell where
  lat : ℚ
  lng : ℚ
  contactIndex : ℤ
deriving DecidableEq, Repr

/-- Stored bounds of a snapshot (TerritoryData.bounds). -/
structure Bounds where
  minLat : ℚ
  maxLat : ℚ
  minLng : ℚ
  maxLng : ℚ
deriving DecidableEq, Repr

/-- The cached snapshot returned by getTerritories (interface TerritoryData
in api.ts).  Optional JSON fields are Option-valued; the field named
is_partial in the source is modelled as partialFlag. -/
structure TerritoryData where
  grid : Option (List GridCell)
  locations_hash : String
  computed_at : Option String
  partialFlag : Option Bool
  total_points : Option ℤ
  bounds : Option Bounds
deriving DecidableEq, Repr

/-- JavaScript truthiness of an optional number: null/undefined and 0 are
falsy (this is the check used by the filter in mappableStandorte). -/
def truthyNum : Option ℚ → Bool
  | none => false
  | some x => x != 0

/-- JavaScript truthiness of an optional string: null/undefined and the
empty string are falsy. -/
def truthyStr : Option String → Bool
  | none => false
  | some s => s != ""

/-- mappableStandorte: standorte.filter((s) => s.latitude && s.longitude). -/
def mappableStandorte (standorte : List Standort) : List Standort :=
  standorte.filter fun s => truthyNum s.latitude && truthyNum s.longitude

/-- Grid configuration (matched with backend): const GRID_SIZE = 32. -/
def GRID_SIZE : ℚ := 32

/-- Color palette for territory regions (regionColors). -/
def regionColors : List String :=
  ["rgba(59, 130, 246, 0.4)",
   "rgba(16, 185, 129, 0.4)",
   "rgba(249, 115, 22, 0.4)",
   "rgba(139, 92, 246, 0.4)",
   "rgba(236, 72, 153, 0.4)",
   "rgba(245, 158, 11, 0.4)",
   "rgba(6, 182, 212, 0.4)",
   "rgba(239, 68, 68, 0.4)",
   "rgba(34, 197, 94, 0.4)",
   "rgba(168, 85, 247, 0.4)"]

/-- latStep = (bounds.maxLat - bounds.minLat) / (GRID_SIZE - 1). -/
def latStepOf (b : Bounds) : ℚ := (b.maxLat - b.minLat) / (GRID_SIZE - 1)

/-- lngStep = (bounds.maxLng - bounds.minLng) / (GRID_SIZE - 1). -/
def lngStepOf (b : Bounds) : ℚ := (b.maxLng - b.minLng) / (GRID_SIZE - 1)

/-- Quantization used for cell-lookup keys: number.toFixed(4), modelled as
rounding the coordinate scaled by 10^4 to an integer. -/
def round4 (x : ℚ) : ℤ := round (x * 10000)

/-- The key string template-literal lat.toFixed(4) + comma + lng.toFixed(4),
modelled as the pair of quantized coordinates. -/
def cellKey (c : GridCell) : ℤ × ℤ := (round4 c.lat, round4 c.lng)

/-- The empty JavaScript Map (new Map between string keys and numbers). -/
def emptyCellMap : ℤ × ℤ → Option ℤ := fun _ => none

/-- cellMap.set(key, value): later insertions overwrite earlier ones. -/
def cellMapSet (m : ℤ × ℤ → Option ℤ) (k : ℤ × ℤ) (v : ℤ) : ℤ × ℤ → Option ℤ :=
  fun q => if q = k then some v else m q

/-- The lookup map built in renderTerritoryBorders:
territoryGrid.forEach((cell) => cellMap.set(key(cell), cell.contactIndex)). -/
def buildCellMap (grid : List GridCell) : ℤ × ℤ → Option ℤ :=
  grid.foldl (fun m c => cellMapSet m (cellKey c) c.contactIndex) emptyCellMap

/-- A border line segment, with endpoints as (lat, lng) pairs. -/
structure Seg where
  fromPt : ℚ × ℚ
  toPt : ℚ × ℚ
deriving DecidableEq, Repr

/-- Key looked up for the right neighbor: (lat, lng + lngStep) quantized. -/
def rightKeyOf (lngStep : ℚ) (c : GridCell) : ℤ × ℤ :=
  (round4 c.lat, round4 (c.lng + lngStep))

/-- Key looked up for the top neighbor: (lat + latStep, lng) quantized. -/
def topKeyOf (latStep : ℚ) (c : GridCell) : ℤ × ℤ :=
  (round4 (c.lat + latStep), round4 c.lng)

/-- The segment pushed when the right neighbor has a different index. -/
def rightSegOf (latStep lngStep : ℚ) (c : GridCell) : Seg :=
  { fromPt := (c.lat - latStep / 2, c.lng + lngStep / 2)
    toPt := (c.lat + latStep / 2, c.lng + lngStep / 2) }

/-- The segment pushed when the top neighbor has a different index. -/
def topSegOf (latStep lngStep : ℚ) (c : GridCell) : Seg :=
  { fromPt := (c.lat + latStep / 2, c.lng - lngStep / 2)
    toPt := (c.lat + latStep / 2, c.lng + lngStep / 2) }

/-- The border segments one cell contributes: the right-neighbor check
followed by the top-neighbor check, each pushing at most one segment. -/
def cellBorderSegs (m : ℤ × ℤ → Option ℤ) (latStep lngStep : ℚ)
    (c : GridCell) : List Seg :=
  (match m (rightKeyOf lngStep c) with
   | some rightIndex =>
     if rightIndex ≠ c.contactIndex then [rightSegOf latStep lngStep c] else []
   | none => []) ++
  (match m (topKeyOf latStep c) with
   | some topIndex =>
     if topIndex ≠ c.contactIndex then [topSegOf latStep lngStep c] else []
   | none => [])

/-- renderTerritoryBorders as a pure function from the grid and the stored
bounds to the list of collected border segments (the drawn polylines). -/
def renderTerritoryBorders (grid : List GridCell) (b : Bounds) : List Seg :=
  let latStep := latStepOf b
  let lngStep := lngStepOf b
  let cellMap := buildCellMap grid
  grid.flatMap (cellBorderSegs cellMap latStep lngStep)

/-- The grid has pairwise-distinct quantized coordinate keys. -/
def keysNodup (grid : List GridCell) : Prop := (grid.map cellKey).Nodup

instance (grid : List GridCell) : Decidable (keysNodup grid) := by
  unfold keysNodup; infer_instance

/-- Cell c2 is the right neighbor of c under the quantized lookup. -/
def rightNeighbor (lngStep : ℚ) (c c2 : GridCell) : Prop :=
  cellKey c2 = rightKeyOf lngStep c

/-- Cell c2 is the top neighbor of c under the quantized lookup. -/
def topNeighbor (latStep : ℚ) (c c2 : GridCell) : Prop :=
  cellKey c2 = topKeyOf latStep c

/-- JS remainder operator: truncated remainder (sign of the dividend). -/
def jsMod (a b : ℤ) : ℤ := Int.tmod a b

/-- JavaScript array indexing arr[i]: undefined for negative or
out-of-range indices. -/
def jsIndex {α : Type} (l : List α) (i : ℤ) : Option α :=
  if 0 ≤ i then l[i.toNat]? else none

/-- A Leaflet rectangle as created in renderTerritoryGrid: the two corners
passed to leaflet.rectangle, the fillColor (undefined when the palette
lookup is out of range), and the optional popup text and click target
(bound only when mappableStandorte[cell.contactIndex] exists). -/
structure Rect where
  corner1 : ℚ × ℚ
  corner2 : ℚ × ℚ
  fillColor : Option String
  popup : Option String
  clickTarget : Option String
deriving DecidableEq, Repr

/-- The rectangle rendered for one grid cell in renderTerritoryGrid. -/
def rectFor (b : Bounds) (standorte : List Standort) (cell : GridCell) : Rect :=
  let latStep := latStepOf b
  let lngStep := lngStepOf b
  let standortOpt := jsIndex (mappableStandorte standorte) cell.contactIndex
  { corner1 := (cell.lat - latStep / 2, cell.lng - lngStep / 2)
    corner2 := (cell.lat + latStep / 2, cell.lng + lngStep / 2)
    fillColor := jsIndex regionColors (jsMod cell.contactIndex (regionColors.length : ℤ))
    popup := standortOpt.map fun s =>
      "<b>" ++ s.name ++ "</b><br>" ++ s.address.getD "Keine Adresse"
    clickTarget := standortOpt.map fun s => s.id }

/-- The component state relevant to territory display: the grid and bounds
variables, the drawn rectangles and border polylines, the two flags, and
whether map and leaflet are initialised. -/
structure TerrState where
  territoryGrid : List GridCell
  territoryBounds : Option Bounds
  territoryRects : List Rect
  borderLines : List Seg
  loadingTerritories : Bool
  fetchInProgress : Bool
  mapReady : Bool
deriving DecidableEq, Repr

/-- renderTerritoryBorders acting on the component state: guarded on map,
grid non-empty and bounds present; replaces borderLines wholesale. -/
def renderTerritoryBordersState (st : TerrState) : TerrState :=
  if !st.mapReady || st.territoryGrid.isEmpty then st
  else
    match st.territoryBounds with
    | none => st
    | some b => { st with borderLines := renderTerritoryBorders st.territoryGrid b }

/-- renderTerritoryGrid acting on the component state: guarded the same
way; replaces territoryRects with one rectangle per grid cell, then renders
borders after rectangles. -/
def renderTerritoryGridState (standorte : List Standort) (st : TerrState) : TerrState :=
  if !st.mapReady || st.territoryGrid.isEmpty then st
  else
    match st.territoryBounds with
    | none => st
    | some b =>
      renderTerritoryBordersState
        { st with territoryRects := st.territoryGrid.map (rectFor b standorte) }

/-- The condition under which loadCachedTerritories uses the cached data:
cached.grid && cached.grid.length > 0 && cached.computed_at &&
!cached.is_partial (JavaScript truthiness per field). -/
def isCompleteCache (cached : TerritoryData) : Bool :=
  (match cached.grid with
   | some g => decide (0 < g.length)
   | none => false) &&
  truthyStr cached.computed_at &&
  !(cached.partialFlag.getD false)

/-- How one invocation of loadCachedTerritories finished. -/
inductive LoadOutcome
  | earlyReturn
  | inFlightSkip
  | usedCachedComplete
  | noCachedMsg
  | caughtError
deriving DecidableEq, Repr

/-- loadCachedTerritories as a pure transition: given the prop list, the
outcome of the awaited getTerritories call, and the state before the call,
it yields the state after the call settles, how it finished, and whether a
cache request was issued at all. -/
def loadCachedTerritories (standorte : List Standort)
    (fetched : Except String TerritoryData) (st : TerrState) :
    TerrState × LoadOutcome × Bool :=
  if !st.mapReady || (mappableStandorte standorte).length < 2 then
    (st, .earlyReturn, false)
  else if st.fetchInProgress then
    (st, .inFlightSkip, false)
  else
    match fetched with
    | .error _ =>
      ({ st with loadingTerritories := false, fetchInProgress := false },
       .caughtError, true)
    | .ok cached =>
      if isCompleteCache cached then
        let st2 := renderTerritoryGridState standorte
          { st with territoryGrid := cached.grid.getD []
                    territoryBounds := cached.bounds }
        ({ st2 with loadingTerritories := false, fetchInProgress := false },
         .usedCachedComplete, true)
      else
        ({ st with loadingTerritories := false, fetchInProgress := false },
         .noCachedMsg, true)

/-- The exported refresh function: when the map is live, clear the grid,
bounds, rectangles and border lines, then reload from the cache. -/
def refresh (standorte : List Standort) (fetched : Except String TerritoryData)
    (st : TerrState) : TerrState × LoadOutcome × Bool :=
  if st.mapReady then
    loadCachedTerritories standorte fetched
      { st with territoryGrid := []
                territoryBounds := none
                territoryRects := []
                borderLines := [] }
  else (st, .earlyReturn, false)

/-- The $effect reacting to standorte/calls/serviceId changes: clears the
drawn territories and state, then reloads from the cache. -/
def effectRerender (standorte : List Standort)
    (fetched : Except String TerritoryData) (st : TerrState) :
    TerrState × LoadOutcome × Bool :=
  if st.mapReady then
    loadCachedTerritories standorte fetched
      { st with territoryRects := []
                borderLines := []
                territoryGrid := []
                territoryBounds := none }
  else (st, .earlyReturn, false)

/-- The entry guards of loadCachedTerritories all pass. -/
def guardsPass (standorte : List Standort) (st : TerrState) : Prop :=
  st.mapReady = true ∧ 2 ≤ (mappableStandorte standorte).length ∧
    st.fetchInProgress = false

instance (standorte : List Standort) (st : TerrState) :
    Decidable (guardsPass standorte st) := by
  unfold guardsPass; infer_instance

/-- The specification of border extraction: no duplicate segments; for a
cell the right (resp. top) edge segment is emitted exactly when a cell with
the quantized right-neighbor (resp. top-neighbor) key exists and carries a
different contactIndex; and every emitted segment is such an edge of some
cell with a differing neighbor (in particular no segment arises from a
missing or same-index neighbor, and no other directions are checked). -/
def bordersSpec (grid : List GridCell) (b : Bounds) : Prop :=
  (renderTerritoryBorders grid b).Nodup ∧
  (∀ c ∈ grid,
    (rightSegOf (latStepOf b) (lngStepOf b) c ∈ renderTerritoryBorders grid b ↔
      ∃ c2 ∈ grid, rightNeighbor (lngStepOf b) c c2 ∧
        c2.contactIndex ≠ c.contactIndex) ∧
    (topSegOf (latStepOf b) (lngStepOf b) c ∈ renderTerritoryBorders grid b ↔
      ∃ c2 ∈ grid, topNeighbor (latStepOf b) c c2 ∧
        c2.contactIndex ≠ c.contactIndex)) ∧
  (∀ s ∈ renderTerritoryBorders grid b, ∃ c ∈ grid,
    (s = rightSegOf (latStepOf b) (lngStepOf b) c ∧
      ∃ c2 ∈ grid, rightNeighbor (lngStepOf b) c c2 ∧
        c2.contactIndex ≠ c.contactIndex) ∨
    (s = topSegOf (latStepOf b) (lngStepOf b) c ∧
      ∃ c2 ∈ grid, topNeighbor (latStepOf b) c c2 ∧
        c2.contactIndex ≠ c.contactIndex))

/-- The reading of the mappable filter that the spec words describe:
locations with both coordinates present (compared with the implemented
JavaScript-truthiness filter). -/
def mappableStandorteSpec (standorte : List Standort) : List Standort :=
  standorte.filter fun s => s.latitude.isSome && s.longitude.isSome

/-! Concrete sample inputs used by witnesses and counterexamples. -/

/-- A 2 x 2 sample grid split into two territories. -/
def sampleGrid : List GridCell :=
  [⟨0, 0, 0⟩, ⟨0, 1, 0⟩, ⟨1, 0, 1⟩, ⟨1, 1, 1⟩]

/-- Bounds whose 32-step lattice has unit steps. -/
def sampleBounds : Bounds := ⟨0, 31, 0, 31⟩

/-- Two mappable sample locations. -/
def sampleStandorte : List Standort :=
  [⟨"a", "Standort A", none, some 48, some 11⟩,
   ⟨"b", "Standort B", none, some 49, some 12⟩]

/-- A location on the equator: both coordinates present, latitude 0. -/
def zeroLatStandort : Standort := ⟨"z", "Zero", none, some 0, some 10⟩

/-- An idle component state with a live map and nothing drawn. -/
def readyState : TerrState :=
  { territoryGrid := []
    territoryBounds := none
    territoryRects := []
    borderLines := []
    loadingTerritories := false
    fetchInProgress := false
    mapReady := true }

/-- A state with a fetch currently in flight. -/
def busyState : TerrState :=
  { readyState with fetchInProgress := true, loadingTerritories := true }

/-- A state holding a loaded snapshot and its drawing. -/
def loadedState : TerrState :=
  { readyState with
      territoryGrid := sampleGrid
      territoryBounds := some sampleBounds }

/-- An in-progress checkpoint snapshot: non-empty grid, computed_at null,
is_partial true. -/
def partialSnapshot : TerritoryData :=
  { grid := some sampleGrid
    locations_hash := "h1"
    computed_at := none
    partialFlag := some true
    total_points := some 900
    bounds := some sampleBounds }

/-- A complete snapshot. -/
def completeSnapshot : TerritoryData :=
  { grid := some sampleGrid
    locations_hash := "h1"
    computed_at := some "2025-01-01T04:00:00Z"
    partialFlag := some false
    total_points := some 4
    bounds := some sampleBounds }

/-- Computable form of the quantization, used to evaluate keys on concrete
inputs (integer floor division of the scaled numerator). -/
lemma round4_eval (x : ℚ) :
    round4 x = (20000 * x.num + (x.den : ℤ)) / (2 * (x.den : ℤ)) := by
  have hden : (x.den : ℚ) ≠ 0 := Nat.cast_ne_zero.mpr x.den_nz
  have hx : x * 10000 + 1/2
      = ((20000 * x.num + (x.den : ℤ) : ℤ) : ℚ) / ((2 * x.den : ℕ) : ℚ) := by
    conv_lhs => rw [← Rat.num_div_den x]
    push_cast
    field_simp
    ring
  unfold round4
  rw [round_eq, hx]
  rw [Rat.floor_intCast_div_natCast (20000 * x.num + (x.den : ℤ)) (2 * x.den)]
  push_cast
  rfl

/-! Helper lemmas about the lookup map built in renderTerritoryBorders. -/

lemma foldl_cellMapSet_apply (grid : List GridCell) (m0 : ℤ × ℤ → Option ℤ)
    (k : ℤ × ℤ) :
    grid.foldl (fun m c => cellMapSet m (cellKey c) c.contactIndex) m0 k =
      (match grid.reverse.find? (fun c => cellKey c == k) with
       | some c => some c.contactIndex
       | none => m0 k) := by
  induction grid generalizing m0 with
  | nil => rfl
  | cons c cs ih =>
    rw [List.foldl_cons, ih, List.reverse_cons, List.find?_append]
    cases hfind : cs.reverse.find? (fun c => cellKey c == k) with
    | some c2 => simp
    | none =>
      by_cases hk : cellKey c = k
      · simp [hk, cellMapSet]
      · have hne : (cellKey c == k) = false := by simpa using hk
        simp [hne, cellMapSet, hk]
        intro h
        exact absurd h.symm hk

lemma buildCellMap_some_ex {grid : List GridCell} {k : ℤ × ℤ} {i : ℤ}
    (h : buildCellMap grid k = some i) :
    ∃ c ∈ grid, cellKey c = k ∧ c.contactIndex = i := by
  rw [buildCellMap, foldl_cellMapSet_apply] at h
  cases hfind : grid.reverse.find? (fun c => cellKey c == k) with
  | none => rw [hfind] at h; exact absurd h (by simp [emptyCellMap])
  | some c =>
    rw [hfind] at h
    refine ⟨c, ?_, ?_, ?_⟩
    · exact List.mem_reverse.mp (List.mem_of_find?_eq_some hfind)
    · simpa using List.find?_some hfind
    · simpa using h

lemma buildCellMap_eq_some {grid : List GridCell} (hnd : keysNodup grid)
    {c : GridCell} (hc : c ∈ grid) :
    buildCellMap grid (cellKey c) = some c.contactIndex := by
  rw [buildCellMap, foldl_cellMapSet_apply]
  cases hfind : grid.reverse.find? (fun c2 => cellKey c2 == cellKey c) with
  | none =>
    rw [List.find?_eq_none] at hfind
    exact absurd (by simp : (cellKey c == cellKey c) = true)
      (hfind c (List.mem_reverse.mpr hc))
  | some c2 =>
    have hmem : c2 ∈ grid := List.mem_reverse.mp (List.mem_of_find?_eq_some hfind)
    have hkey : cellKey c2 = cellKey c := by simpa using List.find?_some hfind
    have : c2 = c := List.inj_on_of_nodup_map hnd hmem hc hkey
    simp [this]

/-- With pairwise-distinct keys the lookup map is exactly membership in the
grid. -/
lemma buildCellMap_some_iff {grid : List GridCell} (hnd : keysNodup grid)
    {k : ℤ × ℤ} {i : ℤ} :
    buildCellMap grid k = some i ↔ ∃ c ∈ grid, cellKey c = k ∧ c.contactIndex = i := by
  constructor
  · exact buildCellMap_some_ex
  · rintro ⟨c, hc, rfl, rfl⟩
    exact buildCellMap_eq_some hnd hc

/-! Geometry of the emitted segments. -/

lemma rightSegOf_inj {ls ws : ℚ} {c c2 : GridCell}
    (h : rightSegOf ls ws c = rightSegOf ls ws c2) :
    c.lat = c2.lat ∧ c.lng = c2.lng := by
  simp only [rightSegOf, Seg.mk.injEq, Prod.mk.injEq] at h
  obtain ⟨⟨h1, h2⟩, h3, h4⟩ := h
  constructor <;> linarith

lemma topSegOf_inj {ls ws : ℚ} {c c2 : GridCell}
    (h : topSegOf ls ws c = topSegOf ls ws c2) :
    c.lat = c2.lat ∧ c.lng = c2.lng := by
  simp only [topSegOf, Seg.mk.injEq, Prod.mk.injEq] at h
  obtain ⟨⟨h1, h2⟩, h3, h4⟩ := h
  constructor <;> linarith

lemma rightSegOf_eq_topSegOf {ls ws : ℚ} {c c2 : GridCell}
    (h : rightSegOf ls ws c = topSegOf ls ws c2) :
    ls = 0 ∧ ws = 0 ∧ c.lat = c2.lat ∧ c.lng = c2.lng := by
  simp only [rightSegOf, topSegOf, Seg.mk.injEq, Prod.mk.injEq] at h
  obtain ⟨⟨h1, h2⟩, h3, h4⟩ := h
  refine ⟨by linarith, by linarith, by linarith, by linarith⟩

lemma cellKey_eq_of_coords {c c2 : GridCell} (h1 : c.lat = c2.lat)
    (h2 : c.lng = c2.lng) : cellKey c = cellKey c2 := by
  simp [cellKey, h1, h2]

lemma mem_cellBorderSegs {m : ℤ × ℤ → Option ℤ} {ls ws : ℚ} {c : GridCell}
    {s : Seg} :
    s ∈ cellBorderSegs m ls ws c ↔
      ((∃ i, m (rightKeyOf ws c) = some i ∧ i ≠ c.contactIndex) ∧
        s = rightSegOf ls ws c) ∨
      ((∃ i, m (topKeyOf ls c) = some i ∧ i ≠ c.contactIndex) ∧
        s = topSegOf ls ws c) := by
  unfold cellBorderSegs
  cases hr : m (rightKeyOf ws c) with
  | none =>
    cases ht : m (topKeyOf ls c) with
    | none => simp
    | some j => by_cases hj : j = c.contactIndex <;> simp [hj]
  | some i =>
    cases ht : m (topKeyOf ls c) with
    | none =>
      by_cases hi : i = c.contactIndex <;> simp [hi]
    | some j =>
      by_cases hi : i = c.contactIndex <;> by_cases hj : j = c.contactIndex <;>
        simp [hi, hj]

/-- With both steps zero a cell is its own right and top neighbor, so it
contributes no segment. -/
lemma cellBorderSegs_degenerate {grid : List GridCell} (hnd : keysNodup grid)
    {c : GridCell} (hc : c ∈ grid) :
    cellBorderSegs (buildCellMap grid) 0 0 c = [] := by
  have hrk : rightKeyOf 0 c = cellKey c := by simp [rightKeyOf, cellKey]
  have htk : topKeyOf 0 c = cellKey c := by simp [topKeyOf, cellKey]
  unfold cellBorderSegs
  rw [hrk, htk, buildCellMap_eq_some hnd hc]
  simp

lemma cond_key_iff {grid : List GridCell} (hnd : keysNodup grid) (k : ℤ × ℤ)
    (n : ℤ) :
    (∃ i, buildCellMap grid k = some i ∧ i ≠ n) ↔
      ∃ c2 ∈ grid, cellKey c2 = k ∧ c2.contactIndex ≠ n := by
  constructor
  · rintro ⟨i, hm, hne⟩
    obtain ⟨c2, hc2, hk, hidx⟩ := buildCellMap_some_ex hm
    exact ⟨c2, hc2, hk, by rw [hidx]; exact hne⟩
  · rintro ⟨c2, hc2, hk, hne⟩
    exact ⟨c2.contactIndex, by rw [← hk]; exact buildCellMap_eq_some hnd hc2, hne⟩

lemma segs_nodup (grid : List GridCell) (hnd : keysNodup grid) (ls ws : ℚ) :
    (grid.flatMap (cellBorderSegs (buildCellMap grid) ls ws)).Nodup := by
  rw [List.nodup_flatMap]
  constructor
  · intro c hc
    unfold cellBorderSegs
    cases hr : buildCellMap grid (rightKeyOf ws c) with
    | none =>
      cases ht : buildCellMap grid (topKeyOf ls c) with
      | none => simp
      | some j => by_cases hj : j = c.contactIndex <;> simp [hj]
    | some i =>
      cases ht : buildCellMap grid (topKeyOf ls c) with
      | none => by_cases hi : i = c.contactIndex <;> simp [hi]
      | some j =>
        by_cases hi : i = c.contactIndex
        · by_cases hj : j = c.contactIndex <;> simp [hi, hj]
        · by_cases hj : j = c.contactIndex
          · simp [hi, hj]
          · simp only [ne_eq, hi, not_false_eq_true, if_true, hj,
              List.cons_append, List.nil_append, List.nodup_cons,
              List.mem_singleton, List.nodup_cons, List.not_mem_nil,
              not_false_eq_true, List.nodup_nil, and_true]
            intro heq
            obtain ⟨hls, hws, -, -⟩ := rightSegOf_eq_topSegOf heq
            subst hls hws
            have hrk : rightKeyOf (0 : ℚ) c = cellKey c := by
              simp [rightKeyOf, cellKey]
            rw [hrk, buildCellMap_eq_some hnd hc] at hr
            injection hr with h
            exact hi h.symm
  · have hp : grid.Pairwise (fun a b => cellKey a ≠ cellKey b) :=
      List.pairwise_map.mp hnd
    refine hp.imp ?_
    intro a b hne s hsa hsb
    rcases mem_cellBorderSegs.mp hsa with ⟨-, rfl⟩ | ⟨-, rfl⟩ <;>
      rcases mem_cellBorderSegs.mp hsb with ⟨-, heq⟩ | ⟨-, heq⟩
    · obtain ⟨h1, h2⟩ := rightSegOf_inj heq
      exact hne (cellKey_eq_of_coords h1 h2)
    · obtain ⟨-, -, h1, h2⟩ := rightSegOf_eq_topSegOf heq
      exact hne (cellKey_eq_of_coords h1 h2)
    · obtain ⟨-, -, h1, h2⟩ := rightSegOf_eq_topSegOf heq.symm
      exact hne (cellKey_eq_of_coords h1.symm h2.symm)
    · obtain ⟨h1, h2⟩ := topSegOf_inj heq
      exact hne (cellKey_eq_of_coords h1 h2)

lemma rightSeg_mem_iff {grid : List GridCell} (hnd : keysNodup grid)
    (ls ws : ℚ) {c : GridCell} (hc : c ∈ grid) :
    rightSegOf ls ws c ∈ grid.flatMap (cellBorderSegs (buildCellMap grid) ls ws) ↔
      ∃ c2 ∈ grid, cellKey c2 = rightKeyOf ws c ∧
        c2.contactIndex ≠ c.contactIndex := by
  rw [List.mem_flatMap]
  constructor
  · rintro ⟨c3, hc3, hmem⟩
    rcases mem_cellBorderSegs.mp hmem with ⟨hcond, heq⟩ | ⟨hcond, heq⟩
    · obtain ⟨h1, h2⟩ := rightSegOf_inj heq
      have hcc : c = c3 :=
        List.inj_on_of_nodup_map hnd hc hc3 (cellKey_eq_of_coords h1 h2)
      subst hcc
      exact (cond_key_iff hnd _ _).mp hcond
    · obtain ⟨hls, hws, h1, h2⟩ := rightSegOf_eq_topSegOf heq
      have hcc : c = c3 :=
        List.inj_on_of_nodup_map hnd hc hc3 (cellKey_eq_of_coords h1 h2)
      subst hcc hls
      have htk : topKeyOf (0 : ℚ) c = cellKey c := by simp [topKeyOf, cellKey]
      rw [htk, buildCellMap_eq_some hnd hc] at hcond
      obtain ⟨i, hi, hne⟩ := hcond
      injection hi with h
      exact absurd h.symm hne
  · intro hex
    refine ⟨c, hc, ?_⟩
    rw [mem_cellBorderSegs]
    exact Or.inl ⟨(cond_key_iff hnd _ _).mpr hex, rfl⟩

lemma topSeg_mem_iff {grid : List GridCell} (hnd : keysNodup grid)
    (ls ws : ℚ) {c : GridCell} (hc : c ∈ grid) :
    topSegOf ls ws c ∈ grid.flatMap (cellBorderSegs (buildCellMap grid) ls ws) ↔
      ∃ c2 ∈ grid, cellKey c2 = topKeyOf ls c ∧
        c2.contactIndex ≠ c.contactIndex := by
  rw [List.mem_flatMap]
  constructor
  · rintro ⟨c3, hc3, hmem⟩
    rcases mem_cellBorderSegs.mp hmem with ⟨hcond, heq⟩ | ⟨hcond, heq⟩
    · obtain ⟨hls, hws, h1, h2⟩ := rightSegOf_eq_topSegOf heq.symm
      have hcc : c = c3 :=
        List.inj_on_of_nodup_map hnd hc hc3 (cellKey_eq_of_coords h1.symm h2.symm)
      subst hcc hws
      have hrk : rightKeyOf (0 : ℚ) c = cellKey c := by simp [rightKeyOf, cellKey]
      rw [hrk, buildCellMap_eq_some hnd hc] at hcond
      obtain ⟨i, hi, hne⟩ := hcond
      injection hi with h
      exact absurd h.symm hne
    · obtain ⟨h1, h2⟩ := topSegOf_inj heq
      have hcc : c = c3 :=
        List.inj_on_of_nodup_map hnd hc hc3 (cellKey_eq_of_coords h1 h2)
      subst hcc
      exact (cond_key_iff hnd _ _).mp hcond
  · intro hex
    refine ⟨c, hc, ?_⟩
    rw [mem_cellBorderSegs]
    exact Or.inr ⟨(cond_key_iff hnd _ _).mpr hex, rfl⟩

/-- C1: border extraction on any grid with pairwise-distinct quantized
coordinate keys emits, for every adjacent pair (right/top neighbor under
the quantized lookup, and only those directions) with differing
contactIndex, exactly one segment along the shared edge, emits nothing for
same-index or missing neighbors, and lists each boundary edge exactly
once. -/
theorem renderTerritoryBorders_correct (grid : List GridCell) (b : Bounds)
    (hnd : keysNodup grid) : bordersSpec grid b := by
  have hrfl : renderTerritoryBorders grid b =
      grid.flatMap
        (cellBorderSegs (buildCellMap grid) (latStepOf b) (lngStepOf b)) := rfl
  unfold bordersSpec
  refine ⟨?_, ?_, ?_⟩
  · rw [hrfl]
    exact segs_nodup grid hnd _ _
  · intro c hc
    rw [hrfl]
    exact ⟨rightSeg_mem_iff hnd _ _ hc, topSeg_mem_iff hnd _ _ hc⟩
  · intro s hs
    rw [hrfl, List.mem_flatMap] at hs
    obtain ⟨c, hc, hmem⟩ := hs
    rcases mem_cellBorderSegs.mp hmem with ⟨hcond, rfl⟩ | ⟨hcond, rfl⟩
    · exact ⟨c, hc, Or.inl ⟨rfl, (cond_key_iff hnd _ _).mp hcond⟩⟩
    · exact ⟨c, hc, Or.inr ⟨rfl, (cond_key_iff hnd _ _).mp hcond⟩⟩

/-- C1 witness: the 2 x 2 sample grid has pairwise-distinct keys and the
border specification holds on it. -/
theorem renderTerritoryBorders_correct_witness :
    keysNodup sampleGrid ∧ bordersSpec sampleGrid sampleBounds :=
  ⟨by simp [keysNodup, sampleGrid, cellKey, round4_eval]; decide,
   renderTerritoryBorders_correct sampleGrid sampleBounds
     (by simp [keysNodup, sampleGrid, cellKey, round4_eval]; decide)⟩

lemma truthyNum_iff {o : Option ℚ} :
    truthyNum o = true ↔ ∃ x, o = some x ∧ x ≠ 0 := by
  cases o <;> simp [truthyNum]

/-- C5: with fewer than 2 mappable locations, loadCachedTerritories is a
no-op with an empty result: state unchanged, no cache request issued, no
error raised (outcome is the early return). -/
theorem loadCachedTerritories_fewMappable (st : TerrState)
    (standorte : List Standort) (r : Except String TerritoryData)
    (h : (mappableStandorte standorte).length < 2) :
    loadCachedTerritories standorte r st = (st, .earlyReturn, false) := by
  simp [loadCachedTerritories, h]

/-- C5 witness: a single-location list triggers the early return. -/
theorem loadCachedTerritories_fewMappable_witness :
    (mappableStandorte [⟨"a", "Standort A", none, some 48, some 11⟩]).length < 2 ∧
      loadCachedTerritories [⟨"a", "Standort A", none, some 48, some 11⟩]
        (.error "boom") readyState = (readyState, .earlyReturn, false) :=
  ⟨by decide,
   loadCachedTerritories_fewMappable readyState
     [⟨"a", "Standort A", none, some 48, some 11⟩] (.error "boom") (by decide)⟩

/-- C6: a trigger while a fetch is already in flight leaves the state
unchanged and issues no second cache request; a request is only ever
issued from invocations that found fetchInProgress false, so at most one
fetch is in flight. -/
theorem loadCachedTerritories_singleFlight (st : TerrState)
    (standorte : List Standort) (r : Except String TerritoryData)
    (h : st.fetchInProgress = true) :
    (loadCachedTerritories standorte r st).1 = st ∧
    (loadCachedTerritories standorte r st).2.2 = false ∧
    ((loadCachedTerritories standorte r st).2.1 = .earlyReturn ∨
      (loadCachedTerritories standorte r st).2.1 = .inFlightSkip) := by
  by_cases h1 : (!st.mapReady || (mappableStandorte standorte).length < 2 : Bool) = true
  · simp [loadCachedTerritories, h1]
  · simp only [loadCachedTerritories, h1]
    simp [h]

/-- C6 witness: a busy state drops the trigger without a request. -/
theorem loadCachedTerritories_singleFlight_witness :
    busyState.fetchInProgress = true ∧
    ((loadCachedTerritories sampleStandorte (.ok completeSnapshot) busyState).1 =
        busyState ∧
      (loadCachedTerritories sampleStandorte (.ok completeSnapshot) busyState).2.2 =
        false ∧
      ((loadCachedTerritories sampleStandorte (.ok completeSnapshot) busyState).2.1 =
          .earlyReturn ∨
        (loadCachedTerritories sampleStandorte (.ok completeSnapshot) busyState).2.1 =
          .inFlightSkip)) :=
  ⟨rfl, loadCachedTerritories_singleFlight busyState sampleStandorte
    (.ok completeSnapshot) rfl⟩

/-- C10: every invocation that passes the entry guards resets both
loadingTerritories and fetchInProgress to false before resolving, on every
path (error, empty or partial cache, and complete cache alike). -/
theorem loadCachedTerritories_resetsFlags (st : TerrState)
    (standorte : List Standort) (r : Except String TerritoryData)
    (h : guardsPass standorte st) :
    (loadCachedTerritories standorte r st).1.loadingTerritories = false ∧
    (loadCachedTerritories standorte r st).1.fetchInProgress = false := by
  obtain ⟨h1, h2, h3⟩ := h
  have hlt := Nat.not_lt.mpr h2
  cases r with
  | error e => simp [loadCachedTerritories, h1, h3, hlt]
  | ok cached =>
    by_cases hc : isCompleteCache cached = true
    · simp [loadCachedTerritories, h1, h3, hlt, hc]
    · simp [loadCachedTerritories, h1, h3, hlt, hc]

/-- C10 witness: flags are reset after a successful complete-cache load. -/
theorem loadCachedTerritories_resetsFlags_witness :
    guardsPass sampleStandorte readyState ∧
    ((loadCachedTerritories sampleStandorte (.ok completeSnapshot)
        readyState).1.loadingTerritories = false ∧
      (loadCachedTerritories sampleStandorte (.ok completeSnapshot)
        readyState).1.fetchInProgress = false) :=
  ⟨by decide, loadCachedTerritories_resetsFlags readyState sampleStandorte
    (.ok completeSnapshot) (by decide)⟩

/-- C4: a rejected cache read or a malformed/incomplete snapshot never
propagates: the call settles normally, only resetting the two flags (grid,
bounds, rectangles and border lines are untouched, so an empty display
stays empty), logging the failure as its outcome. -/
theorem loadCachedTerritories_errorSafe (st : TerrState)
    (standorte : List Standort) (e : String) (cached : TerritoryData)
    (h : guardsPass standorte st) :
    loadCachedTerritories standorte (.error e) st =
      ({ st with loadingTerritories := false, fetchInProgress := false },
        .caughtError, true) ∧
    (isCompleteCache cached = false →
      loadCachedTerritories standorte (.ok cached) st =
        ({ st with loadingTerritories := false, fetchInProgress := false },
          .noCachedMsg, true)) := by
  obtain ⟨h1, h2, h3⟩ := h
  have hlt := Nat.not_lt.mpr h2
  constructor
  · simp [loadCachedTerritories, h1, h3, hlt]
  · intro hc
    simp [loadCachedTerritories, h1, h3, hlt, hc]

/-- C4 witness: a rejected request and a snapshot without grid both settle
normally as cache misses. -/
theorem loadCachedTerritories_errorSafe_witness :
    guardsPass sampleStandorte readyState ∧
    (loadCachedTerritories sampleStandorte (.error "HTTP 500") readyState =
      ({ readyState with loadingTerritories := false, fetchInProgress := false },
        .caughtError, true) ∧
    (isCompleteCache partialSnapshot = false →
      loadCachedTerritories sampleStandorte (.ok partialSnapshot) readyState =
        ({ readyState with loadingTerritories := false, fetchInProgress := false },
          .noCachedMsg, true))) :=
  ⟨by decide, loadCachedTerritories_errorSafe readyState sampleStandorte
    "HTTP 500" partialSnapshot (by decide)⟩

/-- C3 counterexample: a partial snapshot (is_partial true, computed_at
null) with a non-empty best-known grid is not displayed at all — the
loader leaves the display empty and reports the no-cache message — so the
partial result is not shown as progress. -/
theorem partialSnapshot_not_displayed :
    partialSnapshot.partialFlag = some true ∧
    partialSnapshot.computed_at = none ∧
    (partialSnapshot.grid.getD []).length = 4 ∧
    (loadCachedTerritories sampleStandorte (.ok partialSnapshot)
      readyState).1.territoryGrid = [] ∧
    (loadCachedTerritories sampleStandorte (.ok partialSnapshot)
      readyState).1.territoryRects = [] ∧
    (loadCachedTerritories sampleStandorte (.ok partialSnapshot)
      readyState).2.1 = .noCachedMsg := by
  decide

/-- C3 amended: a partial snapshot (is_partial true or computed_at null)
is treated exactly like an absent snapshot — nothing is rendered, state
only has its flags reset, and the outcome is the informational no-cache
message, never the error outcome. -/
theorem partial_treated_as_absent (st : TerrState)
    (standorte : List Standort) (cached : TerritoryData)
    (h : guardsPass standorte st)
    (hp : cached.partialFlag = some true ∨ cached.computed_at = none) :
    loadCachedTerritories standorte (.ok cached) st =
      ({ st with loadingTerritories := false, fetchInProgress := false },
        .noCachedMsg, true) ∧
    (loadCachedTerritories standorte (.ok cached) st).2.1 ≠ .caughtError := by
  obtain ⟨h1, h2, h3⟩ := h
  have hlt := Nat.not_lt.mpr h2
  have hc : isCompleteCache cached = false := by
    rcases hp with hp | hp <;> simp [isCompleteCache, hp, truthyStr]
  refine ⟨by simp [loadCachedTerritories, h1, h3, hlt, hc], ?_⟩
  simp [loadCachedTerritories, h1, h3, hlt, hc]

/-- C3 amended witness: the sample partial snapshot surfaces as the
no-cache message. -/
theorem partial_treated_as_absent_witness :
    guardsPass sampleStandorte readyState ∧
    (partialSnapshot.partialFlag = some true ∨
      partialSnapshot.computed_at = none) ∧
    (loadCachedTerritories sampleStandorte (.ok partialSnapshot) readyState =
      ({ readyState with loadingTerritories := false, fetchInProgress := false },
        .noCachedMsg, true) ∧
    (loadCachedTerritories sampleStandorte (.ok partialSnapshot)
      readyState).2.1 ≠ .caughtError) :=
  ⟨by decide, Or.inl rfl,
   partial_treated_as_absent readyState sampleStandorte partialSnapshot
     (by decide) (Or.inl rfl)⟩

/-- C8 counterexample: a location on the equator has both coordinates
present, yet the implemented truthiness filter drops it, while the
both-coordinates-present reading keeps it. -/
theorem zeroLat_excluded :
    zeroLatStandort.latitude.isSome = true ∧
    zeroLatStandort.longitude.isSome = true ∧
    mappableStandorte [zeroLatStandort] = [] ∧
    mappableStandorteSpec [zeroLatStandort] = [zeroLatStandort] := by
  decide

/-- C8 amended: mappableStandorte is exactly the order-preserving
subsequence of locations whose latitude and longitude are both present and
nonzero (JavaScript truthiness); a location with a missing coordinate or a
coordinate equal to 0 is excluded. -/
theorem mappableStandorte_characterization (standorte : List Standort) :
    (mappableStandorte standorte).Sublist standorte ∧
    ∀ s, s ∈ mappableStandorte standorte ↔
      s ∈ standorte ∧ (∃ x, s.latitude = some x ∧ x ≠ 0) ∧
        (∃ y, s.longitude = some y ∧ y ≠ 0) := by
  refine ⟨List.filter_sublist _, fun s => ?_⟩
  rw [mappableStandorte, List.mem_filter]
  simp [truthyNum_iff, and_assoc]

/-- C8 amended witness: on the sample list plus the equator location, the
filter keeps exactly the locations with nonzero coordinates. -/
theorem mappableStandorte_characterization_witness :
    (mappableStandorte (zeroLatStandort :: sampleStandorte)).Sublist
        (zeroLatStandort :: sampleStandorte) ∧
    ∀ s, s ∈ mappableStandorte (zeroLatStandort :: sampleStandorte) ↔
      s ∈ (zeroLatStandort :: sampleStandorte) ∧
        (∃ x, s.latitude = some x ∧ x ≠ 0) ∧
        (∃ y, s.longitude = some y ∧ y ≠ 0) :=
  mappableStandorte_characterization (zeroLatStandort :: sampleStandorte)

/-- C2: rendering a cached snapshot positions cells and borders using only
the bounds stored in the snapshot, with steps (max - min) / (GRID_SIZE - 1)
at the fixed resolution GRID_SIZE = 32; the geometry is independent of the
current location list, and with no stored bounds nothing is rendered. -/
theorem renderUsesSnapshotBounds (st : TerrState)
    (standorte standorte2 : List Standort) (b : Bounds)
    (hm : st.mapReady = true) (hg : st.territoryGrid ≠ []) :
    (st.territoryBounds = none →
      renderTerritoryGridState standorte st = st ∧
      renderTerritoryBordersState st = st) ∧
    (st.territoryBounds = some b →
      (renderTerritoryGridState standorte st).territoryRects =
        st.territoryGrid.map (rectFor b standorte) ∧
      (renderTerritoryGridState standorte st).borderLines =
        renderTerritoryBorders st.territoryGrid b) ∧
    GRID_SIZE = 32 ∧
    (∀ cell : GridCell,
      (rectFor b standorte cell).corner1 =
        (cell.lat - (b.maxLat - b.minLat) / (32 - 1) / 2,
         cell.lng - (b.maxLng - b.minLng) / (32 - 1) / 2) ∧
      (rectFor b standorte cell).corner2 =
        (cell.lat + (b.maxLat - b.minLat) / (32 - 1) / 2,
         cell.lng + (b.maxLng - b.minLng) / (32 - 1) / 2) ∧
      (rectFor b standorte cell).corner1 = (rectFor b standorte2 cell).corner1 ∧
      (rectFor b standorte cell).corner2 = (rectFor b standorte2 cell).corner2) := by
  have hie : st.territoryGrid.isEmpty = false := by
    cases h : st.territoryGrid with
    | nil => exact absurd h hg
    | cons a t => rfl
  refine ⟨?_, ?_, rfl, ?_⟩
  · intro hb
    constructor <;>
      simp [renderTerritoryGridState, renderTerritoryBordersState, hm, hie, hb]
  · intro hb
    constructor <;>
      simp [renderTerritoryGridState, renderTerritoryBordersState, hm, hie, hb]
  · intro cell
    refine ⟨?_, ?_, rfl, rfl⟩ <;> simp [rectFor, latStepOf, lngStepOf, GRID_SIZE]

/-- C2 witness: the loaded sample state renders from its stored bounds. -/
theorem renderUsesSnapshotBounds_witness :
    loadedState.mapReady = true ∧ loadedState.territoryGrid ≠ [] ∧
    ((loadedState.territoryBounds = none →
      renderTerritoryGridState sampleStandorte loadedState = loadedState ∧
      renderTerritoryBordersState loadedState = loadedState) ∧
    (loadedState.territoryBounds = some sampleBounds →
      (renderTerritoryGridState sampleStandorte loadedState).territoryRects =
        loadedState.territoryGrid.map (rectFor sampleBounds sampleStandorte) ∧
      (renderTerritoryGridState sampleStandorte loadedState).borderLines =
        renderTerritoryBorders loadedState.territoryGrid sampleBounds) ∧
    GRID_SIZE = 32 ∧
    (∀ cell : GridCell,
      (rectFor sampleBounds sampleStandorte cell).corner1 =
        (cell.lat - (sampleBounds.maxLat - sampleBounds.minLat) / (32 - 1) / 2,
         cell.lng - (sampleBounds.maxLng - sampleBounds.minLng) / (32 - 1) / 2) ∧
      (rectFor sampleBounds sampleStandorte cell).corner2 =
        (cell.lat + (sampleBounds.maxLat - sampleBounds.minLat) / (32 - 1) / 2,
         cell.lng + (sampleBounds.maxLng - sampleBounds.minLng) / (32 - 1) / 2) ∧
      (rectFor sampleBounds sampleStandorte cell).corner1 =
        (rectFor sampleBounds [] cell).corner1 ∧
      (rectFor sampleBounds sampleStandorte cell).corner2 =
        (rectFor sampleBounds [] cell).corner2)) :=
  ⟨rfl, by decide,
   renderUsesSnapshotBounds loadedState sampleStandorte [] sampleBounds rfl
     (by decide)⟩

/-- C9: rendering a cell with nonnegative contactIndex always yields a
defined fill color from the 10-entry palette (index modulo 10), and a cell
whose contactIndex exceeds the mappable-location list is still drawn as a
rectangle but receives no popup and no click handler. -/
theorem rectFor_safe (b : Bounds) (standorte : List Standort)
    (cell : GridCell) (h : 0 ≤ cell.contactIndex) :
    regionColors.length = 10 ∧
    (∃ color, (rectFor b standorte cell).fillColor = some color ∧
      color ∈ regionColors ∧
      regionColors[(jsMod cell.contactIndex
        (regionColors.length : ℤ)).toNat]? = some color) ∧
    (((mappableStandorte standorte).length : ℤ) ≤ cell.contactIndex →
      (rectFor b standorte cell).popup = none ∧
      (rectFor b standorte cell).clickTarget = none) ∧
    (∀ st : TerrState, st.mapReady = true → st.territoryBounds = some b →
      cell ∈ st.territoryGrid →
      rectFor b standorte cell ∈
        (renderTerritoryGridState standorte st).territoryRects) := by
  refine ⟨rfl, ?_, ?_, ?_⟩
  · have h0 : 0 ≤ jsMod cell.contactIndex (regionColors.length : ℤ) :=
      Int.tmod_nonneg _ h
    have hlt : jsMod cell.contactIndex (regionColors.length : ℤ) <
        (regionColors.length : ℤ) :=
      Int.tmod_lt_of_pos _ (by simp [regionColors])
    have hnat : (jsMod cell.contactIndex (regionColors.length : ℤ)).toNat <
        regionColors.length := by omega
    refine ⟨regionColors[(jsMod cell.contactIndex
      (regionColors.length : ℤ)).toNat], ?_, List.getElem_mem hnat,
      List.getElem?_eq_getElem hnat⟩
    simp [rectFor, jsIndex, h0, List.getElem?_eq_getElem hnat]
  · intro hlen
    have hge : (mappableStandorte standorte).length ≤ cell.contactIndex.toNat := by
      omega
    constructor <;>
      simp [rectFor, jsIndex, h, List.getElem?_eq_none hge]
  · intro st hm hb hc
    have hie : st.territoryGrid.isEmpty = false := by
      cases hl : st.territoryGrid with
      | nil => rw [hl] at hc; cases hc
      | cons a t => rfl
    simp [renderTerritoryGridState, renderTerritoryBordersState, hm, hie, hb]
    exact ⟨cell, hc, rfl⟩

/-- C9 witness: a cell whose contactIndex 12 exceeds both the palette and
the two mappable sample locations. -/
theorem rectFor_safe_witness :
    (0 : ℤ) ≤ (GridCell.mk 5 5 12).contactIndex ∧
    (regionColors.length = 10 ∧
    (∃ color, (rectFor sampleBounds sampleStandorte
        (GridCell.mk 5 5 12)).fillColor = some color ∧ color ∈ regionColors ∧
      regionColors[(jsMod (GridCell.mk 5 5 12).contactIndex
        (regionColors.length : ℤ)).toNat]? = some color) ∧
    (((mappableStandorte sampleStandorte).length : ℤ) ≤
        (GridCell.mk 5 5 12).contactIndex →
      (rectFor sampleBounds sampleStandorte (GridCell.mk 5 5 12)).popup = none ∧
      (rectFor sampleBounds sampleStandorte
        (GridCell.mk 5 5 12)).clickTarget = none) ∧
    (∀ st : TerrState, st.mapReady = true →
      st.territoryBounds = some sampleBounds →
      (GridCell.mk 5 5 12) ∈ st.territoryGrid →
      rectFor sampleBounds sampleStandorte (GridCell.mk 5 5 12) ∈
        (renderTerritoryGridState sampleStandorte st).territoryRects)) :=
  ⟨by decide,
   rectFor_safe sampleBounds sampleStandorte (GridCell.mk 5 5 12) (by decide)⟩

/-- Where the displayed fields of the post-load state come from: either
they are untouched, or (on a complete snapshot with stored bounds) the
grid, bounds, rectangles and borders all derive from the fetched snapshot,
or (complete snapshot without bounds) the grid is stored but nothing is
drawn. -/
lemma load_result_fields (standorte : List Standort)
    (r : Except String TerritoryData) (st : TerrState) :
    ((loadCachedTerritories standorte r st).1.territoryGrid = st.territoryGrid ∧
     (loadCachedTerritories standorte r st).1.territoryBounds = st.territoryBounds ∧
     (loadCachedTerritories standorte r st).1.territoryRects = st.territoryRects ∧
     (loadCachedTerritories standorte r st).1.borderLines = st.borderLines) ∨
    (∃ cached b, r = .ok cached ∧ isCompleteCache cached = true ∧
      cached.bounds = some b ∧
      (loadCachedTerritories standorte r st).1.territoryGrid = cached.grid.getD [] ∧
      (loadCachedTerritories standorte r st).1.territoryBounds = some b ∧
      (loadCachedTerritories standorte r st).1.territoryRects =
        (cached.grid.getD []).map (rectFor b standorte) ∧
      (loadCachedTerritories standorte r st).1.borderLines =
        renderTerritoryBorders (cached.grid.getD []) b) ∨
    (∃ cached, r = .ok cached ∧ isCompleteCache cached = true ∧
      cached.bounds = none ∧
      (loadCachedTerritories standorte r st).1.territoryGrid = cached.grid.getD [] ∧
      (loadCachedTerritories standorte r st).1.territoryBounds = none ∧
      (loadCachedTerritories standorte r st).1.territoryRects = st.territoryRects ∧
      (loadCachedTerritories standorte r st).1.borderLines = st.borderLines) := by
  by_cases h1 : st.mapReady = true
  · by_cases h2 : (mappableStandorte standorte).length < 2
    · left
      simp [loadCachedTerritories, h2]
    · by_cases h3 : st.fetchInProgress = true
      · left
        simp [loadCachedTerritories, h1, h2, h3]
      · have h3f : st.fetchInProgress = false := by
          cases hx : st.fetchInProgress
          · rfl
          · exact absurd hx h3
        cases r with
        | error e => left; simp [loadCachedTerritories, h1, h2, h3f]
        | ok cached =>
          by_cases hc : isCompleteCache cached = true
          · have hgrid : ∃ g, cached.grid = some g ∧ 0 < g.length := by
              cases hgr : cached.grid with
              | none => rw [isCompleteCache, hgr] at hc; simp at hc
              | some g =>
                refine ⟨g, rfl, ?_⟩
                rw [isCompleteCache, hgr] at hc
                simp at hc
                exact hc.1.1
            obtain ⟨g, hgr, hglen⟩ := hgrid
            have hie : g.isEmpty = false := by
              cases g with
              | nil => simp at hglen
              | cons a t => rfl
            cases hbd : cached.bounds with
            | none =>
              right; right
              refine ⟨cached, rfl, hc, hbd, ?_⟩
              simp [loadCachedTerritories, h1, h2, h3f, hc, hgr, hbd,
                renderTerritoryGridState, hie]
            | some b =>
              right; left
              refine ⟨cached, b, rfl, hc, hbd, ?_⟩
              simp [loadCachedTerritories, h1, h2, h3f, hc, hgr, hbd,
                renderTerritoryGridState, renderTerritoryBordersState, hie]
          · left
            simp [loadCachedTerritories, h1, h2, h3f, hc]
  · left
    have h1f : st.mapReady = false := by
      cases hx : st.mapReady
      · rfl
      · exact absurd hx h1
    simp [loadCachedTerritories, h1f]

/-- C7: refresh and the input-change effect replace rather than patch: the
result never depends on the previously drawn rectangles, border lines,
grid or bounds (they are cleared first), the resulting grid is either
empty or exactly the freshly fetched snapshot grid, and every drawn
rectangle and border segment derives from the fresh grid and its stored
bounds — old cells are never blended in. -/
theorem refresh_replaces (st : TerrState) (standorte : List Standort)
    (r : Except String TerritoryData) (h : st.mapReady = true) :
    (∀ st2 : TerrState, st2.mapReady = st.mapReady →
      st2.loadingTerritories = st.loadingTerritories →
      st2.fetchInProgress = st.fetchInProgress →
      refresh standorte r st2 = refresh standorte r st ∧
      effectRerender standorte r st2 = effectRerender standorte r st) ∧
    effectRerender standorte r st = refresh standorte r st ∧
    ((refresh standorte r st).1.territoryGrid = [] ∨
      ∃ cached, r = .ok cached ∧
        (refresh standorte r st).1.territoryGrid = cached.grid.getD []) ∧
    (∀ rect ∈ (refresh standorte r st).1.territoryRects,
      ∃ b ∈ (refresh standorte r st).1.territoryBounds,
      ∃ cell ∈ (refresh standorte r st).1.territoryGrid,
        rect = rectFor b standorte cell) ∧
    (∀ seg ∈ (refresh standorte r st).1.borderLines,
      ∃ b ∈ (refresh standorte r st).1.territoryBounds,
        seg ∈ renderTerritoryBorders
          ((refresh standorte r st).1.territoryGrid) b) := by
  have hre : refresh standorte r st =
      loadCachedTerritories standorte r
        { st with territoryGrid := [], territoryBounds := none,
                  territoryRects := [], borderLines := [] } := by
    simp [refresh, h]
  refine ⟨?_, ?_, ?_, ?_, ?_⟩
  · intro st2 e1 e2 e3
    have h2 : st2.mapReady = true := e1.trans h
    constructor <;> simp [refresh, effectRerender, h, h2, e2, e3]
  · simp [refresh, effectRerender, h]
  · rw [hre]
    rcases load_result_fields standorte r
        { st with territoryGrid := [], territoryBounds := none,
                  territoryRects := [], borderLines := [] } with
      ⟨hg, hb, hr2, hl⟩ | ⟨cached, b, hrok, hc, hbd, hg, hb, hr2, hl⟩ |
      ⟨cached, hrok, hc, hbd, hg, hb, hr2, hl⟩
    · exact Or.inl hg
    · exact Or.inr ⟨cached, hrok, hg⟩
    · exact Or.inr ⟨cached, hrok, hg⟩
  · rw [hre]
    rcases load_result_fields standorte r
        { st with territoryGrid := [], territoryBounds := none,
                  territoryRects := [], borderLines := [] } with
      ⟨hg, hb, hr2, hl⟩ | ⟨cached, b, hrok, hc, hbd, hg, hb, hr2, hl⟩ |
      ⟨cached, hrok, hc, hbd, hg, hb, hr2, hl⟩
    · intro rect hrect
      rw [hr2] at hrect
      simp at hrect
    · intro rect hrect
      rw [hr2] at hrect
      obtain ⟨cell, hcell, hrfl⟩ := List.mem_map.mp hrect
      refine ⟨b, by simp [hb], cell, by rw [hg]; exact hcell, hrfl.symm⟩
    · intro rect hrect
      rw [hr2] at hrect
      simp at hrect
  · rw [hre]
    rcases load_result_fields standorte r
        { st with territoryGrid := [], territoryBounds := none,
                  territoryRects := [], borderLines := [] } with
      ⟨hg, hb, hr2, hl⟩ | ⟨cached, b, hrok, hc, hbd, hg, hb, hr2, hl⟩ |
      ⟨cached, hrok, hc, hbd, hg, hb, hr2, hl⟩
    · intro seg hseg
      rw [hl] at hseg
      simp at hseg
    · intro seg hseg
      rw [hl] at hseg
      refine ⟨b, by simp [hb], ?_⟩
      rw [hg]
      exact hseg
    · intro seg hseg
      rw [hl] at hseg
      simp at hseg

/-- C7 witness: refreshing a state that already shows the sample drawing
replaces it with the freshly loaded snapshot only. -/
theorem refresh_replaces_witness :
    loadedState.mapReady = true ∧
    ((∀ st2 : TerrState, st2.mapReady = loadedState.mapReady →
      st2.loadingTerritories = loadedState.loadingTerritories →
      st2.fetchInProgress = loadedState.fetchInProgress →
      refresh sampleStandorte (.ok completeSnapshot) st2 =
        refresh sampleStandorte (.ok completeSnapshot) loadedState ∧
      effectRerender sampleStandorte (.ok completeSnapshot) st2 =
        effectRerender sampleStandorte (.ok completeSnapshot) loadedState) ∧
    effectRerender sampleStandorte (.ok completeSnapshot) loadedState =
      refresh sampleStandorte (.ok completeSnapshot) loadedState ∧
    ((refresh sampleStandorte (.ok completeSnapshot)
        loadedState).1.territoryGrid = [] ∨
      ∃ cached, (Except.ok completeSnapshot : Except String TerritoryData) =
          .ok cached ∧
        (refresh sampleStandorte (.ok completeSnapshot)
          loadedState).1.territoryGrid = cached.grid.getD []) ∧
    (∀ rect ∈ (refresh sampleStandorte (.ok completeSnapshot)
        loadedState).1.territoryRects,
      ∃ b ∈ (refresh sampleStandorte (.ok completeSnapshot)
        loadedState).1.territoryBounds,
      ∃ cell ∈ (refresh sampleStandorte (.ok completeSnapshot)
        loadedState).1.territoryGrid,
        rect = rectFor b sampleStandorte cell) ∧
    (∀ seg ∈ (refresh sampleStandorte (.ok completeSnapshot)
        loadedState).1.borderLines,
      ∃ b ∈ (refresh sampleStandorte (.ok completeSnapshot)
        loadedState).1.territoryBounds,
        seg ∈ renderTerritoryBorders
          ((refresh sampleStandorte (.ok completeSnapshot)
            loadedState).1.territoryGrid) b)) :=
  ⟨rfl, refresh_replaces loadedState sampleStandorte (.ok completeSnapshot) rfl⟩

end StandortMap
